import Mathlib

/-!
Shallow embedding of `src/LVGLDisplayDriver.h` (mbed-lvgl): the
`LVGLDisplayDriver` adapter class bridging LittlevGL's display-buffer
abstraction to Mbed-OS. Pointers are modelled as natural numbers
(`0` = `NULL`), `mbed::Span<lv_color_t>` as a pointer/length pair, and
`MBED_ASSERT` is assumed active (debug build): an operation whose
assertion fails is modelled as returning a failure value instead of a
driver state.
-/

namespace MbedLVGL

/-- `mbed::Span<lv_color_t>`: a bounded view over pixel storage.
`ptr` models `data()` (`0` for a null pointer, as in the
default-constructed `mbed::Span<lv_color_t, 0>()`), `len` models
`size()`; `empty()` is `len = 0`. -/
structure Span where
  ptr : Nat
  len : Nat
  deriving Repr, DecidableEq

/-- `lv_disp_buf_t`, the LittlevGL display-buffer descriptor.
Modelled from the LittlevGL API consumed by this repository (the
library itself is external to it): the descriptor records the two
buffer pointers and the shared length passed to `lv_disp_buf_init`. -/
structure LvDispBuf where
  buf1 : Nat
  buf2 : Nat
  size_in_px : Nat
  deriving Repr, DecidableEq

/-- `lv_disp_buf_init(&buf, buf1, buf2, size_in_px_cnt)`: populates the
descriptor with the two buffer pointers and the shared length. -/
def lv_disp_buf_init (buf1 buf2 size_in_px : Nat) : LvDispBuf :=
  ⟨buf1, buf2, size_in_px⟩

/-- The compile-time configuration the header reads:
`LV_HOR_RES_MAX`, `LV_VER_RES_MAX` (resolution maxima) and
`MBED_CONF_MBED_LVGL_DEFAULT_DISPLAY_BUFFER_SIZE` (the default buffer
length allocated when the caller supplies no primary buffer). -/
structure Config where
  LV_HOR_RES_MAX : Nat
  LV_VER_RES_MAX : Nat
  MBED_CONF_MBED_LVGL_DEFAULT_DISPLAY_BUFFER_SIZE : Nat
  deriving Repr, DecidableEq

/-- The state of a constructed `LVGLDisplayDriver` object: its fields
as declared at the bottom of the header. `lv_disp_obj = 0` models the
`NULL` back-reference. -/
structure LVGLDisplayDriver where
  primary_display_buffer : Span
  secondary_display_buffer : Span
  hor_res : Nat
  ver_res : Nat
  lv_buf : LvDispBuf
  user_provided_display_buffer : Bool
  lv_disp_obj : Nat
  deriving Repr, DecidableEq

/-- `initialize_display_buffers()`: fills `lv_buf` via
`lv_disp_buf_init(&lv_buf, primary.data(), secondary.data(),
primary.size())`. -/
def initialize_display_buffers (d : LVGLDisplayDriver) : LVGLDisplayDriver :=
  { d with
      lv_buf := lv_disp_buf_init d.primary_display_buffer.ptr
        d.secondary_display_buffer.ptr d.primary_display_buffer.len }

/-- The object state already written when the constructor's
`MBED_ASSERT` fires: the member-initializer list has set `hor_res`,
`ver_res` and `lv_disp_obj`, and lines 53-54 of the header have set the
ownership flag and the primary buffer view. The secondary buffer has
not been adopted and `lv_buf` has not been initialized at that point. -/
structure AssertState where
  hor_res : Nat
  ver_res : Nat
  lv_disp_obj : Nat
  user_provided_display_buffer : Bool
  primary_display_buffer : Span
  deriving Repr, DecidableEq

/-- Outcome of running the constructor: a fully constructed driver, or
an `MBED_ASSERT` failure carrying the partial state written before the
assertion. -/
inductive CtorOutcome where
  | ok (d : LVGLDisplayDriver)
  | assertFail (s : AssertState)
  deriving Repr, DecidableEq

/-- The constructor
`LVGLDisplayDriver(primary_display_buffer, secondary_display_buffer)`.
`allocPtr` models the address returned by
`new lv_color_t[MBED_CONF_MBED_LVGL_DEFAULT_DISPLAY_BUFFER_SIZE]` on
the allocation path. The member-initializer list sets
`hor_res = LV_HOR_RES_MAX`, `ver_res = LV_VER_RES_MAX`,
`lv_disp_obj = NULL`; the body then either allocates a default-sized
primary buffer (empty primary) or adopts the caller's buffers after
asserting that a non-empty secondary matches the primary's size, and
finally calls `initialize_display_buffers()`. -/
def construct (cfg : Config) (allocPtr : Nat)
    (primary_display_buffer secondary_display_buffer : Span) : CtorOutcome :=
  let hor_res := cfg.LV_HOR_RES_MAX
  let ver_res := cfg.LV_VER_RES_MAX
  let lv_disp_obj := 0
  if primary_display_buffer.len = 0 then
    -- user_provided_display_buffer = false; allocate the default buffer
    let buf : Span := ⟨allocPtr, cfg.MBED_CONF_MBED_LVGL_DEFAULT_DISPLAY_BUFFER_SIZE⟩
    CtorOutcome.ok (initialize_display_buffers
      ⟨buf, secondary_display_buffer, hor_res, ver_res, ⟨0, 0, 0⟩, false, lv_disp_obj⟩)
  else
    -- user_provided_display_buffer = true; adopt the caller's primary, then
    -- MBED_ASSERT(secondary.empty() || secondary.size() == primary.size())
    if secondary_display_buffer.len = 0 ∨
        secondary_display_buffer.len = primary_display_buffer.len then
      CtorOutcome.ok (initialize_display_buffers
        ⟨primary_display_buffer, secondary_display_buffer, hor_res, ver_res,
          ⟨0, 0, 0⟩, true, lv_disp_obj⟩)
    else
      CtorOutcome.assertFail ⟨hor_res, ver_res, lv_disp_obj, true, primary_display_buffer⟩

/-- The destructor `~LVGLDisplayDriver()`: when the buffer was not user
provided it runs `delete[] primary_display_buffer.data()`. The result
is the address freed, or `none` when nothing is freed. -/
def destructor (d : LVGLDisplayDriver) : Option Nat :=
  if !d.user_provided_display_buffer then some d.primary_display_buffer.ptr
  else none

/-- `set_resolution(new_hor_res, new_ver_res)`:
`MBED_ASSERT(new_hor_res <= LV_HOR_RES_MAX)`,
`MBED_ASSERT(new_ver_res <= LV_VER_RES_MAX)`, then assign both fields.
A failed assertion is modelled as `none`. -/
def set_resolution (cfg : Config) (d : LVGLDisplayDriver)
    (new_hor_res new_ver_res : Nat) : Option LVGLDisplayDriver :=
  if new_hor_res ≤ cfg.LV_HOR_RES_MAX then
    if new_ver_res ≤ cfg.LV_VER_RES_MAX then
      some { d with hor_res := new_hor_res, ver_res := new_ver_res }
    else none
  else none

/-- `get_resolution(hor_res, ver_res)`: writes the two fields through
the out-pointers. Modelled as returning the pair written out together
with the object state after the call (the body assigns no member). -/
def get_resolution (d : LVGLDisplayDriver) : (Nat × Nat) × LVGLDisplayDriver :=
  ((d.hor_res, d.ver_res), d)

/-- `lv_area_t`: a rectangle `x1, y1, x2, y2` of `lv_coord_t`. -/
structure Area where
  x1 : Nat
  y1 : Nat
  x2 : Nat
  y2 : Nat
  deriving Repr, DecidableEq

/-- Default `has_rounder()`: `return false;`. -/
def has_rounder (_d : LVGLDisplayDriver) : Bool := false

/-- Default `round_lv_area(disp_drv, area)`: empty body, so the object
state and the area are returned unchanged. -/
def round_lv_area (d : LVGLDisplayDriver) (area : Area) :
    LVGLDisplayDriver × Area := (d, area)

/-- Default `has_pix_write_func()`: `return false;`. -/
def has_pix_write_func (_d : LVGLDisplayDriver) : Bool := false

/-- Default `set_pixel(disp_drv, buf, buf_w, x, y, color, opa)`: empty
body, so the object state and the raw buffer are returned unchanged. -/
def set_pixel (d : LVGLDisplayDriver) (buf : List Nat)
    (_buf_w _x _y _color _opa : Nat) : LVGLDisplayDriver × List Nat := (d, buf)

/-- The parameter names of `monitor(lv_disp_drv_t* disp_drv,
uint32_t time, uint32_t px)` (the only identifiers its body could
legally reference besides members and globals). -/
def monitor_params : List String := ["disp_drv", "time", "px"]

/-- The identifiers the enabled branch of `monitor` passes to `printf`
as data arguments, in order: the source line is
`printf("%d px refreshed in %d ms\n", time, ms);`. -/
def monitor_printf_args : List String := ["time", "ms"]

/-- `monitor` when `MBED_CONF_MBED_LVGL_ENABLE_FLUSH_MONITORING` is
compiled out: empty body, no observable effect. -/
def monitor_disabled (d : LVGLDisplayDriver) (_time _px : Nat) :
    LVGLDisplayDriver := d

/-- `get_lv_buf()`: returns (the address of) the `lv_buf` member;
modelled as returning the descriptor value. -/
def get_lv_buf (d : LVGLDisplayDriver) : LvDispBuf := d.lv_buf

/-- `set_lv_disp_obj(disp_obj)`: `lv_disp_obj = disp_obj;`. -/
def set_lv_disp_obj (d : LVGLDisplayDriver) (disp_obj : Nat) :
    LVGLDisplayDriver := { d with lv_disp_obj := disp_obj }

/-- `get_lv_disp_obj()`: `return lv_disp_obj;`. -/
def get_lv_disp_obj (d : LVGLDisplayDriver) : Nat := d.lv_disp_obj

/-- The scenario of claim C2: run `set_resolution` and, when its
assertions pass, read back `get_resolution` on the resulting state. -/
def set_then_get (cfg : Config) (d : LVGLDisplayDriver) (h v : Nat) :
    Option (Nat × Nat) :=
  (set_resolution cfg d h v).map fun d2 => (get_resolution d2).1

/-- A sample constructed driver state used to instantiate hypotheses of
the claim theorems at concrete inputs: it is the result of
`construct ⟨480, 320, 64⟩ 1000 ⟨100, 64⟩ ⟨0, 0⟩`. -/
def d0 : LVGLDisplayDriver :=
  ⟨⟨100, 64⟩, ⟨0, 0⟩, 480, 320, ⟨100, 0, 64⟩, true, 0⟩

/-- The state `d0` after `set_resolution(100, 50)`: only the
resolution fields differ. -/
def d1 : LVGLDisplayDriver :=
  ⟨⟨100, 64⟩, ⟨0, 0⟩, 100, 50, ⟨100, 0, 64⟩, true, 0⟩

/-- The driver produced by the zero-argument construction
`construct ⟨480, 320, 64⟩ 3000 ⟨0, 0⟩ ⟨0, 0⟩`: a self-owned primary
buffer of the default length 64 at address 3000 and an empty
secondary. -/
def dz : LVGLDisplayDriver :=
  ⟨⟨3000, 64⟩, ⟨0, 0⟩, 480, 320, ⟨3000, 0, 64⟩, false, 0⟩

/-- C1 counterexample: constructing with an empty primary span and a
caller-supplied secondary of length 32 (default buffer size 64)
succeeds without any assertion, yet leaves both buffers non-empty with
unequal lengths 64 and 32 — the equal-length invariant is not enforced
on this path. -/
theorem C1_counterexample :
    construct ⟨480, 320, 64⟩ 1000 ⟨0, 0⟩ ⟨2000, 32⟩ =
      CtorOutcome.ok ⟨⟨1000, 64⟩, ⟨2000, 32⟩, 480, 320, ⟨1000, 2000, 64⟩, false, 0⟩ ∧
    (64 : Nat) ≠ 0 ∧ (32 : Nat) ≠ 0 ∧ (64 : Nat) ≠ 32 := by
  decide

/-- C1 (amended): the constructor's equal-length assertion fires
exactly when the primary buffer is caller-supplied (non-empty) and the
secondary is non-empty with a different length; with an empty primary,
any secondary is adopted without a size check, so two non-empty buffers
of unequal length can be constructed. -/
theorem C1_assert_iff_user_primary_mismatch (cfg : Config) (a : Nat) (p s : Span) :
    (∃ st, construct cfg a p s = CtorOutcome.assertFail st) ↔
      p.len ≠ 0 ∧ s.len ≠ 0 ∧ s.len ≠ p.len := by
  unfold construct
  split_ifs with h1 h2
  · simp [h1]
  · constructor
    · rintro ⟨st, hst⟩
      exact hst.elim
    · rintro ⟨_, hs, hne⟩
      rcases h2 with h | h
      · exact absurd h hs
      · exact absurd h hne
  · push_neg at h2
    exact ⟨fun _ => ⟨h1, h2.1, h2.2⟩, fun _ => ⟨_, rfl⟩⟩

/-- C2: with both dimensions within the compile-time maxima,
`set_resolution(h, v)` succeeds and `get_resolution()` then returns
exactly `(h, v)`; with either dimension above its maximum,
`set_resolution` fails fast on the corresponding assertion. -/
theorem C2_set_then_get_roundtrip (cfg : Config) (d : LVGLDisplayDriver) (h v : Nat) :
    (h ≤ cfg.LV_HOR_RES_MAX → v ≤ cfg.LV_VER_RES_MAX →
      set_then_get cfg d h v = some (h, v)) ∧
    (cfg.LV_HOR_RES_MAX < h ∨ cfg.LV_VER_RES_MAX < v →
      set_resolution cfg d h v = none) := by
  constructor
  · intro hh hv
    simp [set_then_get, set_resolution, get_resolution, hh, hv]
  · intro hover
    unfold set_resolution
    split_ifs with h1 h2
    · rcases hover with hc | hc
      · exact absurd h1 (by omega)
      · exact absurd h2 (by omega)
    · rfl
    · rfl

/-- C2 witness: at the configuration `(480, 320, 64)` and sample state
`d0`, setting `(100, 50)` reads back `(100, 50)`, and setting
`(481, 50)` fails the horizontal assertion. -/
theorem C2_set_then_get_roundtrip_witness :
    (100 ≤ 480 ∧ 50 ≤ 320 ∧ set_then_get ⟨480, 320, 64⟩ d0 100 50 = some (100, 50)) ∧
    (480 < 481 ∧ set_resolution ⟨480, 320, 64⟩ d0 481 50 = none) :=
  ⟨⟨by decide, by decide,
      (C2_set_then_get_roundtrip ⟨480, 320, 64⟩ d0 100 50).1 (by decide) (by decide)⟩,
    ⟨by decide,
      (C2_set_then_get_roundtrip ⟨480, 320, 64⟩ d0 481 50).2 (Or.inl (by decide))⟩⟩

/-- C3: for every successfully constructed driver, the destructor
frees the primary buffer (returns a freed address) exactly when the
constructor was given an empty primary span and hence allocated the
buffer itself; a caller-supplied (non-empty) primary buffer is never
freed. -/
theorem C3_destructor_frees_iff_self_allocated (cfg : Config) (a : Nat)
    (p s : Span) (d : LVGLDisplayDriver)
    (hd : construct cfg a p s = CtorOutcome.ok d) :
    ((destructor d).isSome = true ↔ p.len = 0) ∧
    (p.len ≠ 0 → destructor d = none) := by
  unfold construct at hd
  split_ifs at hd with h1 h2
  · cases hd
    constructor
    · exact ⟨fun _ => h1, fun _ => rfl⟩
    · intro hp
      exact absurd h1 hp
  · cases hd
    constructor
    · exact ⟨fun hsome => by simp [destructor, initialize_display_buffers] at hsome,
        fun hp => absurd hp h1⟩
    · intro _
      rfl

/-- C3 witness: `d0` is the result of constructing with the
caller-supplied primary `⟨100, 64⟩`; its destructor frees nothing. -/
theorem C3_destructor_frees_iff_self_allocated_witness :
    construct ⟨480, 320, 64⟩ 1000 ⟨100, 64⟩ ⟨0, 0⟩ = CtorOutcome.ok d0 ∧
    (((destructor d0).isSome = true ↔ (Span.mk 100 64).len = 0) ∧
      ((Span.mk 100 64).len ≠ 0 → destructor d0 = none)) :=
  ⟨by decide,
    C3_destructor_frees_iff_self_allocated ⟨480, 320, 64⟩ 1000 ⟨100, 64⟩ ⟨0, 0⟩
      d0 (by decide)⟩

/-- C4 counterexample: constructing with primary length 64 and
secondary length 32 does fail the assertion, but not before adapter
state has been set: at the failure point the member-initializer list
has written `hor_res = 480`, `ver_res = 320`, `lv_disp_obj = NULL`,
and the constructor body has already set
`user_provided_display_buffer = true` and adopted the primary buffer
view `⟨500, 64⟩` — refuting "before any other adapter state has been
set". -/
theorem C4_counterexample :
    construct ⟨480, 320, 64⟩ 1000 ⟨500, 64⟩ ⟨600, 32⟩ =
      CtorOutcome.assertFail ⟨480, 320, 0, true, ⟨500, 64⟩⟩ ∧
    (AssertState.mk 480 320 0 true ⟨500, 64⟩).user_provided_display_buffer = true := by
  decide

/-- C4 (amended): for all non-empty primary and secondary buffers of
unequal length, construction fails fast on the `MBED_ASSERT`; at that
point the resolution fields, the null display-object pointer, the
ownership flag (true) and the primary buffer view have already been
assigned, while the secondary buffer has not been adopted and the
library descriptor has not been initialized. -/
theorem C4_assert_fires_after_partial_state (cfg : Config) (a : Nat) (p s : Span)
    (hp : p.len ≠ 0) (hs : s.len ≠ 0) (hne : s.len ≠ p.len) :
    construct cfg a p s =
      CtorOutcome.assertFail ⟨cfg.LV_HOR_RES_MAX, cfg.LV_VER_RES_MAX, 0, true, p⟩ := by
  unfold construct
  split_ifs with h1 h2
  · exact absurd h1 hp
  · rcases h2 with h | h
    · exact absurd h hs
    · exact absurd h hne
  · rfl

/-- C4 witness: primary length 64, secondary length 32, as in the
spec's scenario. -/
theorem C4_assert_fires_after_partial_state_witness :
    (Span.mk 500 64).len ≠ 0 ∧ (Span.mk 600 32).len ≠ 0 ∧
    (Span.mk 600 32).len ≠ (Span.mk 500 64).len ∧
    construct ⟨480, 320, 64⟩ 77 ⟨500, 64⟩ ⟨600, 32⟩ =
      CtorOutcome.assertFail ⟨480, 320, 0, true, ⟨500, 64⟩⟩ :=
  ⟨by decide, by decide, by decide,
    C4_assert_fires_after_partial_state ⟨480, 320, 64⟩ 77 ⟨500, 64⟩ ⟨600, 32⟩
      (by decide) (by decide) (by decide)⟩

/-- C5 counterexample: constructing with an empty primary buffer and a
non-empty secondary `⟨2000, 32⟩` allocates the default-sized primary,
but the secondary buffer of the constructed adapter is NOT empty — it
is the supplied span of length 32 — refuting "the secondary buffer is
empty" for arbitrary empty-primary constructions. -/
theorem C5_counterexample :
    construct ⟨480, 320, 64⟩ 1500 ⟨0, 0⟩ ⟨2000, 32⟩ =
      CtorOutcome.ok ⟨⟨1500, 64⟩, ⟨2000, 32⟩, 480, 320, ⟨1500, 2000, 64⟩, false, 0⟩ ∧
    (Span.mk 2000 32).len ≠ 0 := by
  decide

/-- C5 (amended): for every construction with an empty primary span, a
primary buffer of exactly `MBED_CONF_MBED_LVGL_DEFAULT_DISPLAY_BUFFER_SIZE`
elements is allocated at the fresh address, marked self-owned
(`user_provided_display_buffer = false`), the secondary buffer equals
whatever span was supplied (empty in the zero-argument construction),
and the destructor frees exactly the allocated address. -/
theorem C5_default_allocation (cfg : Config) (a : Nat) (p s : Span)
    (hp : p.len = 0) (d : LVGLDisplayDriver)
    (hd : construct cfg a p s = CtorOutcome.ok d) :
    d.primary_display_buffer.ptr = a ∧
    d.primary_display_buffer.len = cfg.MBED_CONF_MBED_LVGL_DEFAULT_DISPLAY_BUFFER_SIZE ∧
    d.user_provided_display_buffer = false ∧
    d.secondary_display_buffer = s ∧
    destructor d = some a := by
  unfold construct at hd
  rw [if_pos hp] at hd
  cases hd
  exact ⟨rfl, rfl, rfl, rfl, rfl⟩

/-- C5 witness: the zero-argument construction
`construct ⟨480, 320, 64⟩ 3000 ⟨0, 0⟩ ⟨0, 0⟩`. -/
theorem C5_default_allocation_witness :
    (Span.mk 0 0).len = 0 ∧
    ((dz.primary_display_buffer.ptr = 3000) ∧
      dz.primary_display_buffer.len = 64 ∧
      dz.user_provided_display_buffer = false ∧
      dz.secondary_display_buffer = ⟨0, 0⟩ ∧
      destructor dz = some 3000) :=
  ⟨by decide,
    C5_default_allocation ⟨480, 320, 64⟩ 3000 ⟨0, 0⟩ ⟨0, 0⟩ (by decide) dz (by decide)⟩

/-- C6: the default capability predicates `has_rounder` and
`has_pix_write_func` return `false` on every adapter state, and the
default `round_lv_area` and `set_pixel` implementations leave the
adapter state, the area and the raw buffer unchanged on every input. -/
theorem C6_default_hooks_inert (d : LVGLDisplayDriver) (area : Area)
    (buf : List Nat) (buf_w x y color opa : Nat) :
    has_rounder d = false ∧ has_pix_write_func d = false ∧
    round_lv_area d area = (d, area) ∧
    set_pixel d buf buf_w x y color opa = (d, buf) :=
  ⟨rfl, rfl, rfl, rfl⟩

/-- C7: in the compiled-in branch of `monitor`, the `printf` data
arguments are the identifiers `time` and `ms`, in that order.  `ms` is
not among `monitor`'s parameters (`disp_drv`, `time`, `px`) — it is
undeclared, so the enabled build does not compile — and the pixel
count `px` is never passed at all, so the record cannot report the
flushed-pixel count the claim (and the source's own doc comment)
describe. -/
theorem C7_monitor_printf_mismatch :
    "ms" ∈ monitor_printf_args ∧ "ms" ∉ monitor_params ∧
    "px" ∈ monitor_params ∧ "px" ∉ monitor_printf_args := by
  decide

/-- C8: every successful construction leaves the library descriptor
`lv_buf` equal to `lv_disp_buf_init` applied to the primary buffer
pointer, the secondary buffer pointer, and the primary buffer's length
as the shared length. -/
theorem C8_descriptor_from_buffer_views (cfg : Config) (a : Nat) (p s : Span)
    (d : LVGLDisplayDriver)
    (hd : construct cfg a p s = CtorOutcome.ok d) :
    d.lv_buf = lv_disp_buf_init d.primary_display_buffer.ptr
      d.secondary_display_buffer.ptr d.primary_display_buffer.len := by
  unfold construct at hd
  split_ifs at hd with h1 h2
  · cases hd
    rfl
  · cases hd
    rfl

/-- C8 witness: the sample construction producing `d0` has
`lv_buf = ⟨100, 0, 64⟩ = lv_disp_buf_init 100 0 64`. -/
theorem C8_descriptor_from_buffer_views_witness :
    construct ⟨480, 320, 64⟩ 1000 ⟨100, 64⟩ ⟨0, 0⟩ = CtorOutcome.ok d0 ∧
    d0.lv_buf = lv_disp_buf_init d0.primary_display_buffer.ptr
      d0.secondary_display_buffer.ptr d0.primary_display_buffer.len :=
  ⟨by decide,
    C8_descriptor_from_buffer_views ⟨480, 320, 64⟩ 1000 ⟨100, 64⟩ ⟨0, 0⟩ d0 (by decide)⟩

/-- C9: an in-bounds `set_resolution` call changes only `hor_res` and
`ver_res`: both buffer views, the ownership flag, the library
descriptor and the display-object back-reference are identical before
and after, and `get_resolution` leaves the whole adapter state
unchanged. -/
theorem C9_set_resolution_frame (cfg : Config) (d : LVGLDisplayDriver)
    (h v : Nat) (d2 : LVGLDisplayDriver)
    (hset : set_resolution cfg d h v = some d2) :
    d2.primary_display_buffer = d.primary_display_buffer ∧
    d2.secondary_display_buffer = d.secondary_display_buffer ∧
    d2.user_provided_display_buffer = d.user_provided_display_buffer ∧
    d2.lv_buf = d.lv_buf ∧
    d2.lv_disp_obj = d.lv_disp_obj ∧
    d2.hor_res = h ∧ d2.ver_res = v ∧
    (get_resolution d).2 = d := by
  unfold set_resolution at hset
  split_ifs at hset with h1 h2
  cases hset
  exact ⟨rfl, rfl, rfl, rfl, rfl, rfl, rfl, rfl⟩

/-- C9 witness: setting `(100, 50)` on `d0` yields `d1`, which differs
from `d0` only in the resolution fields. -/
theorem C9_set_resolution_frame_witness :
    set_resolution ⟨480, 320, 64⟩ d0 100 50 = some d1 ∧
    (d1.primary_display_buffer = d0.primary_display_buffer ∧
      d1.secondary_display_buffer = d0.secondary_display_buffer ∧
      d1.user_provided_display_buffer = d0.user_provided_display_buffer ∧
      d1.lv_buf = d0.lv_buf ∧
      d1.lv_disp_obj = d0.lv_disp_obj ∧
      d1.hor_res = 100 ∧ d1.ver_res = 50 ∧
      (get_resolution d0).2 = d0) :=
  ⟨by decide,
    C9_set_resolution_frame ⟨480, 320, 64⟩ d0 100 50 d1 (by decide)⟩

/-- C10: every freshly constructed adapter has a `NULL` (= 0)
display-object back-reference, so `get_lv_disp_obj` returns `NULL` on
it; and after `set_lv_disp_obj(r)` on any state, `get_lv_disp_obj`
returns exactly `r`. -/
theorem C10_disp_obj_roundtrip (cfg : Config) (a : Nat) (p s : Span)
    (d : LVGLDisplayDriver)
    (hd : construct cfg a p s = CtorOutcome.ok d)
    (e : LVGLDisplayDriver) (r : Nat) :
    get_lv_disp_obj d = 0 ∧
    get_lv_disp_obj (set_lv_disp_obj e r) = r := by
  refine ⟨?_, rfl⟩
  unfold construct at hd
  split_ifs at hd with h1 h2
  · cases hd
    rfl
  · cases hd
    rfl

/-- C10 witness: the sample construction producing `d0`, then setting
the back-reference to `4242` on `d0` and reading it back. -/
theorem C10_disp_obj_roundtrip_witness :
    construct ⟨480, 320, 64⟩ 1000 ⟨100, 64⟩ ⟨0, 0⟩ = CtorOutcome.ok d0 ∧
    (get_lv_disp_obj d0 = 0 ∧
      get_lv_disp_obj (set_lv_disp_obj d0 4242) = 4242) :=
  ⟨by decide,
    C10_disp_obj_roundtrip ⟨480, 320, 64⟩ 1000 ⟨100, 64⟩ ⟨0, 0⟩ d0 (by decide) d0 4242⟩

end MbedLVGL
